import Mathlib

/-
Shallow embedding of the chartmuseum-to-OCI migration tool
(src/chartmuseum2oci/main.go) and verification of the specification
claims about it.

External effects (HTTP responses, subprocess exit codes, filesystem
write/remove failures) are modelled by explicit oracle environments;
the local staging directory is an association list from path to an
abstract byte-content token.
-/

namespace Chartmuseum2oci

/-- The chart identity value type (`HelmChart` in main.go). -/
structure HelmChart where
  name : String
  project : String
  version : String
deriving DecidableEq, Repr

/-- Translation of `HelmChart.ChartFileName`:
`fmt.Sprintf("%s-%s.tgz", hc.Name, hc.Version)`. -/
def HelmChart.ChartFileName (hc : HelmChart) : String :=
  hc.name ++ "-" ++ hc.version ++ ".tgz"

/-- The flag-parsed global configuration of main.go
(sourceHarborURL, credentials, destinationHarborURL, destPath). -/
structure Config where
  sourceHarborURL : String
  sourceHarborUsername : String
  sourceHarborPassword : String
  destinationHarborURL : String
  destinationHarborUsername : String
  destinationHarborPassword : String
  destPath : String
deriving DecidableEq, Repr

/-- The `timeout` constant of main.go: `timeout = 5 * time.Second`,
in seconds. -/
def timeoutSecondsValue : Nat := 5

/-- The local staging directory: an association list from file path to an
abstract content token (chart bytes are abstracted to a Nat). -/
abbrev FileSystem := List (String × Nat)

/-- Model of `os.WriteFile path content fileMode`: create or truncate. -/
def fsWrite (fs : FileSystem) (path : String) (content : Nat) : FileSystem :=
  (path, content) :: fs.filter (fun p => p.1 != path)

/-- Model of a successful `os.Remove path`. -/
def fsRemove (fs : FileSystem) (path : String) : FileSystem :=
  fs.filter (fun p => p.1 != path)

/-- Whether a path currently exists in the staging directory. -/
def fsHas (fs : FileSystem) (path : String) : Bool :=
  fs.any (fun p => p.1 == path)

/-- Oracle for one execution of `pullChartFromSource`: which of the
fallible external operations fail, the HTTP status code, and the
response body. -/
structure FetchEnv where
  requestError : Bool
  transportError : Bool
  statusCode : Nat
  readError : Bool
  body : Nat
  writeError : Bool
deriving DecidableEq, Repr

/-- Error cases of `pullChartFromSource`, in source order. -/
inductive PullError where
  | requestError
  | transportError
  | badStatus (code : Nat)
  | readError
  | writeError
deriving DecidableEq, Repr

/-- The fetch URL built in `pullChartFromSource`:
`fmt.Sprintf("%s/chartrepo/%s/charts/%s", sourceHarborURL, project, chartFileName)`. -/
def sourceChartURL (cfg : Config) (hc : HelmChart) : String :=
  cfg.sourceHarborURL ++ "/chartrepo/" ++ hc.project ++ "/charts/" ++ hc.ChartFileName

/-- Translation of `pullChartFromSource`. The HTTP GET targets
`sourceChartURL cfg hc`; steps in source order: `http.NewRequest`
(requestError), `client.Do` (transportError), status check against
`http.StatusOK` (200), `io.ReadAll` (readError), and finally
`os.WriteFile chartFileName resBody fileMode` (writeError).
Returns the step result together with the staging directory after
the call. -/
def pullChartFromSource (env : FetchEnv) (cfg : Config) (hc : HelmChart)
    (fs : FileSystem) : Except PullError Unit × FileSystem :=
  let chartFileName := hc.ChartFileName
  let _requestURL := sourceChartURL cfg hc
  if env.requestError then (Except.error PullError.requestError, fs)
  else if env.transportError then (Except.error PullError.transportError, fs)
  else if env.statusCode ≠ 200 then
    (Except.error (PullError.badStatus env.statusCode), fs)
  else if env.readError then (Except.error PullError.readError, fs)
  else if env.writeError then (Except.error PullError.writeError, fs)
  else (Except.ok (), fsWrite fs chartFileName env.body)

/-- The destination repo URL built in `pushChartToDestination`:
`fmt.Sprintf("oci://%s/%s%s", destinationHarborURL, project, destPath)`. -/
def pushRepoURL (cfg : Config) (hc : HelmChart) : String :=
  "oci://" ++ cfg.destinationHarborURL ++ "/" ++ hc.project ++ cfg.destPath

/-- Arguments of the `helm push` invocation in `pushChartToDestination`:
`exec.Command(helmBinaryPath, "push", helmChart.ChartFileName(), repoURL)`. -/
def pushCommandArgs (cfg : Config) (hc : HelmChart) : List String :=
  ["push", hc.ChartFileName, pushRepoURL cfg hc]

/-- Translation of `pushChartToDestination`: the `helm push` subprocess
(arguments `pushCommandArgs`) either exits non-zero (`pushError`) or
succeeds. -/
def pushChartToDestination (pushError : Bool) (_cfg : Config)
    (_hc : HelmChart) : Except Unit Unit :=
  if pushError then Except.error () else Except.ok ()

/-- Translation of `removeChartFile`: `os.Remove(helmChart.ChartFileName())`,
with `removeError` the oracle for the remove syscall failing. -/
def removeChartFile (removeError : Bool) (hc : HelmChart)
    (fs : FileSystem) : Except Unit Unit × FileSystem :=
  if removeError then (Except.error (), fs)
  else (Except.ok (), fsRemove fs hc.ChartFileName)

/-- Oracle for one whole chart transfer. -/
structure TransferEnv where
  fetch : FetchEnv
  pushError : Bool
  removeError : Bool
deriving DecidableEq, Repr

/-- The error returned by `migrateChartFromSourceToDestination`,
tagged by the failing step. -/
inductive MigrateError where
  | pullFailed (e : PullError)
  | pushFailed
  | removeFailed
deriving DecidableEq, Repr

/-- The steps of a single chart transfer, for execution traces. -/
inductive Step where
  | fetchStep
  | pushStep
  | cleanupStep
deriving DecidableEq, Repr

/-- Outcome of one call of `migrateChartFromSourceToDestination`:
the returned error (if any), the staging directory afterwards, and the
ordered trace of steps that were attempted. -/
structure MigrateResult where
  result : Except MigrateError Unit
  fs : FileSystem
  steps : List Step
deriving Repr

/-- Translation of `migrateChartFromSourceToDestination`:
pull; on pull error return the wrapped error. Then push; on push error
return the wrapped error. Then `return removeChartFile(helmChart)`:
the remove error, when any, is the function's returned error. -/
def migrateChartFromSourceToDestination (env : TransferEnv) (cfg : Config)
    (hc : HelmChart) (fs : FileSystem) : MigrateResult :=
  let pulled := pullChartFromSource env.fetch cfg hc fs
  match pulled.1 with
  | Except.error e => ⟨Except.error (MigrateError.pullFailed e), pulled.2, [Step.fetchStep]⟩
  | Except.ok _ =>
    match pushChartToDestination env.pushError cfg hc with
    | Except.error _ =>
      ⟨Except.error MigrateError.pushFailed, pulled.2, [Step.fetchStep, Step.pushStep]⟩
    | Except.ok _ =>
      let removed := removeChartFile env.removeError hc pulled.2
      match removed.1 with
      | Except.error _ =>
        ⟨Except.error MigrateError.removeFailed, removed.2,
          [Step.fetchStep, Step.pushStep, Step.cleanupStep]⟩
      | Except.ok _ =>
        ⟨Except.ok (), removed.2, [Step.fetchStep, Step.pushStep, Step.cleanupStep]⟩

/-- Whether the fetch-and-persist step (`pullChartFromSource`) succeeds
under the given oracle. -/
def fetchSucceeds (e : FetchEnv) : Bool :=
  !e.requestError && !e.transportError && (e.statusCode == 200)
    && !e.readError && !e.writeError

/-- Whether a whole transfer fails under the given oracle. -/
def transferFails (env : TransferEnv) : Bool :=
  !(fetchSucceeds env.fetch && !env.pushError && !env.removeError)

/-- Arguments of the `helm registry login` invocation in `helmLogin`. -/
def helmLoginArgs (registry username password : String) : List String :=
  ["registry", "login", "--username", username, "--password", password, registry]

/-- Accumulated state of main's migration loop: `errorCount` as in
main.go, plus (for specification purposes) the identities attempted in
order, the diagnostic records appended by `log.Println` on failure, the
trace of per-chart step events, and the staging directory. -/
structure RunState where
  errorCount : Nat
  attempted : List HelmChart
  diagnostics : List (HelmChart × MigrateError)
  events : List (HelmChart × Step)
  fs : FileSystem
deriving Repr

/-- Translation of the `for _, helmChart := range helmChartsToMigrate`
loop in main: each iteration runs `migrateChartFromSourceToDestination`;
on error it increments `errorCount` and logs a diagnostic, then in
either case continues with the next chart. -/
def migrationLoop (cfg : Config) :
    List (HelmChart × TransferEnv) → RunState → RunState
  | [], st => st
  | (hc, env) :: rest, st =>
    let m := migrateChartFromSourceToDestination env cfg hc st.fs
    let st2 : RunState :=
      match m.result with
      | Except.ok _ =>
        ⟨st.errorCount, st.attempted ++ [hc], st.diagnostics,
          st.events ++ m.steps.map (fun s => (hc, s)), m.fs⟩
      | Except.error e =>
        ⟨st.errorCount + 1, st.attempted ++ [hc], st.diagnostics ++ [(hc, e)],
          st.events ++ m.steps.map (fun s => (hc, s)), m.fs⟩
    migrationLoop cfg rest st2

/-- The success count reported by main's final
`log.Printf("%d Helm charts successfully migrated", len(...)-errorCount)`. -/
def reportedSuccessCount (total errorCount : Nat) : Nat :=
  total - errorCount

/-- How a run of main terminates: `log.Fatal` at one of the three
startup steps (process exit status 1), or normal completion of the
loop (process exit status 0). -/
inductive ExitKind where
  | fatalSourceLogin
  | fatalDestLogin
  | fatalDiscovery
  | completed (errorCount total : Nat)
deriving DecidableEq, Repr

/-- The process exit status of each termination kind: `log.Fatal` calls
`os.Exit(1)`; a normal return from main exits with status 0. -/
def exitStatus : ExitKind → Nat
  | ExitKind.fatalSourceLogin => 1
  | ExitKind.fatalDestLogin => 1
  | ExitKind.fatalDiscovery => 1
  | ExitKind.completed _ _ => 0

/-- Oracle for one whole run of main: whether each `helmLogin` fails,
whether `getHarborChartmuseumCharts` fails, and the identity list it
returns (paired with each chart's transfer oracle). -/
structure MainEnv where
  sourceLoginError : Bool
  destLoginError : Bool
  discoveryError : Bool
  charts : List (HelmChart × TransferEnv)
deriving Repr

/-- Observable outcome of one run of main. -/
structure MainResult where
  exitKind : ExitKind
  attempted : List HelmChart
  diagnostics : List (HelmChart × MigrateError)
  events : List (HelmChart × Step)
  fs : FileSystem
  discoveryConsulted : Bool
deriving Repr

/-- Translation of `main`: login to source (fatal on error), login to
destination (fatal on error), discover charts via
`getHarborChartmuseumCharts` (fatal on error), then run the migration
loop and return normally. -/
def mainRun (env : MainEnv) (cfg : Config) (fs : FileSystem) : MainResult :=
  if env.sourceLoginError then
    ⟨ExitKind.fatalSourceLogin, [], [], [], fs, false⟩
  else if env.destLoginError then
    ⟨ExitKind.fatalDestLogin, [], [], [], fs, false⟩
  else if env.discoveryError then
    ⟨ExitKind.fatalDiscovery, [], [], [], fs, true⟩
  else
    let st := migrationLoop cfg env.charts ⟨0, [], [], [], fs⟩
    ⟨ExitKind.completed st.errorCount env.charts.length,
      st.attempted, st.diagnostics, st.events, st.fs, true⟩

/-- The three kinds of network calls a run performs. -/
inductive NetworkCall where
  | fetchCall
  | pushCall
  | authenticateCall
deriving DecidableEq, Repr

/-- The timeout bound, in seconds, that the source code attaches to each
network call: the fetch uses an `http.Client` with `Timeout: timeout`
(5 seconds); the push and the authenticate calls are `exec.Command`
subprocess invocations of the helm binary created without any context
deadline or timer, so no timeout is attached. -/
def callTimeoutSeconds : NetworkCall → Option Nat
  | NetworkCall.fetchCall => some timeoutSecondsValue
  | NetworkCall.pushCall => none
  | NetworkCall.authenticateCall => none

/-! Closed-form characterizations of the transfer, used by the proofs. -/

/-- The result `pullChartFromSource` returns, as a function of the
oracle alone. -/
def pullResultOf (e : FetchEnv) : Except PullError Unit :=
  if e.requestError then Except.error PullError.requestError
  else if e.transportError then Except.error PullError.transportError
  else if e.statusCode ≠ 200 then Except.error (PullError.badStatus e.statusCode)
  else if e.readError then Except.error PullError.readError
  else if e.writeError then Except.error PullError.writeError
  else Except.ok ()

/-- The result `migrateChartFromSourceToDestination` returns, as a
function of the oracle alone. -/
def migrateResultOf (env : TransferEnv) : Except MigrateError Unit :=
  match pullResultOf env.fetch with
  | Except.error e => Except.error (MigrateError.pullFailed e)
  | Except.ok _ =>
    if env.pushError then Except.error MigrateError.pushFailed
    else if env.removeError then Except.error MigrateError.removeFailed
    else Except.ok ()

/-- The step trace of one transfer, as a function of the oracle alone. -/
def migrateStepsOf (env : TransferEnv) : List Step :=
  if fetchSucceeds env.fetch then
    if env.pushError then [Step.fetchStep, Step.pushStep]
    else [Step.fetchStep, Step.pushStep, Step.cleanupStep]
  else [Step.fetchStep]

/-- The staging directory after one transfer, as a function of the
oracle, the chart and the initial directory. -/
def migrateFsOf (env : TransferEnv) (hc : HelmChart) (fs : FileSystem) : FileSystem :=
  if fetchSucceeds env.fetch then
    if env.pushError then fsWrite fs hc.ChartFileName env.fetch.body
    else if env.removeError then fsWrite fs hc.ChartFileName env.fetch.body
    else fsRemove (fsWrite fs hc.ChartFileName env.fetch.body) hc.ChartFileName
  else fs

theorem pull_fst_eq (e : FetchEnv) (cfg : Config) (hc : HelmChart)
    (fs : FileSystem) : (pullChartFromSource e cfg hc fs).1 = pullResultOf e := by
  unfold pullChartFromSource pullResultOf
  repeat' split
  all_goals rfl

theorem pull_ok_iff (e : FetchEnv) (cfg : Config) (hc : HelmChart)
    (fs : FileSystem) :
    (pullChartFromSource e cfg hc fs).1 = Except.ok () ↔ fetchSucceeds e = true := by
  rcases e with ⟨re, te, sc, rde, b, we⟩
  by_cases h : sc = 200 <;>
    cases re <;> cases te <;> cases rde <;> cases we <;>
    simp [pullChartFromSource, fetchSucceeds, h]

theorem migrate_eq (env : TransferEnv) (cfg : Config) (hc : HelmChart)
    (fs : FileSystem) :
    migrateChartFromSourceToDestination env cfg hc fs =
      ⟨migrateResultOf env, migrateFsOf env hc fs, migrateStepsOf env⟩ := by
  rcases env with ⟨⟨re, te, sc, rde, b, we⟩, pe, rme⟩
  by_cases h : sc = 200 <;>
    cases re <;> cases te <;> cases rde <;> cases we <;> cases pe <;> cases rme <;>
    simp [migrateChartFromSourceToDestination, pullChartFromSource,
      pushChartToDestination, removeChartFile, migrateResultOf, pullResultOf,
      migrateStepsOf, migrateFsOf, fetchSucceeds, h]

theorem migrateResultOf_ok_iff (env : TransferEnv) :
    migrateResultOf env = Except.ok () ↔ transferFails env = false := by
  rcases env with ⟨⟨re, te, sc, rde, b, we⟩, pe, rme⟩
  by_cases h : sc = 200 <;>
    cases re <;> cases te <;> cases rde <;> cases we <;> cases pe <;> cases rme <;>
    simp [migrateResultOf, pullResultOf, transferFails, fetchSucceeds, h]

/-! Concrete fixtures for witnesses and counterexamples. -/

/-- A concrete flag configuration. -/
def cfg0 : Config :=
  ⟨"https://source.example.com", "srcuser", "srcpass",
    "dest.example.com", "dstuser", "dstpass", ""⟩

/-- A fetch oracle in which every external operation succeeds. -/
def fetchOkEnv : FetchEnv := ⟨false, false, 200, false, 7, false⟩

/-- A transfer oracle in which every step succeeds. -/
def envAllOk : TransferEnv := ⟨fetchOkEnv, false, false⟩

/-- A transfer oracle in which only the push step fails. -/
def envPushFails : TransferEnv := ⟨fetchOkEnv, true, false⟩

/-- A transfer oracle in which only the cleanup step fails. -/
def envRemoveFails : TransferEnv := ⟨fetchOkEnv, false, true⟩

/-- A transfer oracle in which the fetch fails with a transport error. -/
def envTransportFails : TransferEnv := ⟨⟨false, true, 200, false, 7, false⟩, false, false⟩

/-- A concrete chart identity. -/
def hc0 : HelmChart := ⟨"redis", "db", "1.0.0"⟩

/-- A second concrete chart identity. -/
def hc1 : HelmChart := ⟨"nginx", "web", "2.3.1"⟩

/-- The number of charts in the list whose transfer fails under the
associated oracle. -/
def failuresOf (charts : List (HelmChart × TransferEnv)) : Nat :=
  (charts.filter (fun p => transferFails p.2)).length

theorem migrationLoop_spec (cfg : Config)
    (charts : List (HelmChart × TransferEnv)) (st : RunState) :
    (migrationLoop cfg charts st).attempted = st.attempted ++ charts.map Prod.fst ∧
    (migrationLoop cfg charts st).errorCount = st.errorCount + failuresOf charts ∧
    (migrationLoop cfg charts st).diagnostics.length
      = st.diagnostics.length + failuresOf charts := by
  induction charts generalizing st with
  | nil => simp [migrationLoop, failuresOf]
  | cons p rest ih =>
    obtain ⟨hc, env⟩ := p
    simp only [migrationLoop, migrate_eq]
    cases hE : migrateResultOf env with
    | ok u =>
      cases u
      have hfail : transferFails env = false := (migrateResultOf_ok_iff env).mp hE
      simp only
      obtain ⟨h1, h2, h3⟩ := ih _
      refine ⟨?_, ?_, ?_⟩
      · rw [h1]; simp
      · rw [h2]; simp [failuresOf, hfail]
      · rw [h3]; simp [failuresOf, hfail]
    | error e =>
      have hfail : transferFails env = true := by
        cases htf : transferFails env with
        | false =>
          have h := (migrateResultOf_ok_iff env).mpr htf
          rw [hE] at h
          simp at h
        | true => rfl
      simp only
      obtain ⟨h1, h2, h3⟩ := ih _
      refine ⟨?_, ?_, ?_⟩
      · rw [h1]; simp
      · rw [h2]; simp [failuresOf, hfail]; omega
      · rw [h3]; simp [failuresOf, hfail]; omega

theorem failuresOf_le (charts : List (HelmChart × TransferEnv)) :
    failuresOf charts ≤ charts.length := by
  simpa [failuresOf] using List.length_filter_le (fun p => transferFails p.2) charts

theorem pull_ok_eq (e : FetchEnv) (cfg : Config) (hc : HelmChart)
    (fs : FileSystem) (h : fetchSucceeds e = true) :
    pullChartFromSource e cfg hc fs
      = (Except.ok (), fsWrite fs hc.ChartFileName e.body) := by
  rcases e with ⟨re, te, sc, rde, b, we⟩
  simp only [fetchSucceeds, Bool.and_eq_true, Bool.not_eq_true', beq_iff_eq] at h
  obtain ⟨⟨⟨⟨h1, h2⟩, h3⟩, h4⟩, h5⟩ := h
  simp [pullChartFromSource, h1, h2, h3, h4, h5]

/-! Claim theorems. -/

/-- Claim C1 counterexample: with a successful fetch but a failing push,
the transfer never attempts the cleanup step (the claim says cleanup is
attempted exactly once regardless of push outcome); and with fetch and
push succeeding but cleanup failing, the transfer reports failure (the
claim says a cleanup failure never changes the reported outcome). -/
theorem C1_counterexample :
    (migrateChartFromSourceToDestination envPushFails cfg0 hc0 []).steps.count
        Step.cleanupStep = 0
    ∧ (migrateChartFromSourceToDestination envPushFails cfg0 hc0 []).result
        = Except.error MigrateError.pushFailed
    ∧ (migrateChartFromSourceToDestination envRemoveFails cfg0 hc0 []).result
        = Except.error MigrateError.removeFailed := by
  refine ⟨?_, ?_, ?_⟩ <;> rfl

/-- Claim C1 amended: cleanup is attempted exactly once when fetch and push
both succeed and is never attempted otherwise (in particular not after a
failed push); and when cleanup is attempted and fails, it does change the
reported outcome: the transfer succeeds exactly when fetch, push, and
cleanup all succeed. -/
theorem C1_cleanup_behavior (env : TransferEnv) (cfg : Config)
    (hc : HelmChart) (fs : FileSystem) :
    ((migrateChartFromSourceToDestination env cfg hc fs).steps.count Step.cleanupStep
      = if fetchSucceeds env.fetch && !env.pushError then 1 else 0)
    ∧ ((migrateChartFromSourceToDestination env cfg hc fs).result = Except.ok ()
        ↔ (fetchSucceeds env.fetch && !env.pushError && !env.removeError) = true) := by
  rw [migrate_eq]
  constructor
  · simp only [migrateStepsOf]
    cases hf : fetchSucceeds env.fetch <;> cases hp : env.pushError <;> simp
  · show migrateResultOf env = Except.ok () ↔ _
    rw [migrateResultOf_ok_iff]
    simp [transferFails]

/-- Claim C2: the migration loop attempts a transfer for every identity of
the discovered list, in the discovery-returned order, regardless of the
per-chart outcomes (one chart's failure never prevents subsequent charts);
each failure increments the error count by one and appends exactly one
diagnostic record. -/
theorem C2_partial_failure_isolation (cfg : Config)
    (charts : List (HelmChart × TransferEnv)) (fs : FileSystem) :
    (migrationLoop cfg charts ⟨0, [], [], [], fs⟩).attempted = charts.map Prod.fst
    ∧ (migrationLoop cfg charts ⟨0, [], [], [], fs⟩).errorCount = failuresOf charts
    ∧ (migrationLoop cfg charts ⟨0, [], [], [], fs⟩).diagnostics.length
        = failuresOf charts := by
  have h := migrationLoop_spec cfg charts ⟨0, [], [], [], fs⟩
  simpa using h

/-- Claim C3: for every non-empty discovered identity list and every
assignment of per-chart outcomes, the reported success count plus the
failure count equals the total count. -/
theorem C3_counts_add_up (cfg : Config)
    (charts : List (HelmChart × TransferEnv)) (fs : FileSystem)
    (_hne : charts ≠ []) :
    reportedSuccessCount charts.length
        (migrationLoop cfg charts ⟨0, [], [], [], fs⟩).errorCount
      + (migrationLoop cfg charts ⟨0, [], [], [], fs⟩).errorCount
      = charts.length := by
  have h := (migrationLoop_spec cfg charts ⟨0, [], [], [], fs⟩).2.1
  have hle := failuresOf_le charts
  simp only [reportedSuccessCount, h, Nat.zero_add]
  omega

/-- Claim C3 witness: the counts add up on a concrete one-chart run whose
single transfer fails. -/
theorem C3_counts_add_up_witness :
    reportedSuccessCount ([(hc0, envPushFails)] : List (HelmChart × TransferEnv)).length
        (migrationLoop cfg0 [(hc0, envPushFails)] ⟨0, [], [], [], []⟩).errorCount
      + (migrationLoop cfg0 [(hc0, envPushFails)] ⟨0, [], [], [], []⟩).errorCount
      = ([(hc0, envPushFails)] : List (HelmChart × TransferEnv)).length :=
  C3_counts_add_up cfg0 [(hc0, envPushFails)] [] (by simp)

/-- Claim C5: the steps of a transfer are strictly ordered
fetch-push-cleanup and short-circuit on the first error; in particular,
when the fetch step fails the trace stops at the fetch step and the push
step is never attempted. -/
theorem C5_fetch_failure_short_circuits (env : TransferEnv) (cfg : Config)
    (hc : HelmChart) (fs : FileSystem) :
    ((migrateChartFromSourceToDestination env cfg hc fs).steps = [Step.fetchStep]
      ∨ (migrateChartFromSourceToDestination env cfg hc fs).steps
          = [Step.fetchStep, Step.pushStep]
      ∨ (migrateChartFromSourceToDestination env cfg hc fs).steps
          = [Step.fetchStep, Step.pushStep, Step.cleanupStep])
    ∧ (fetchSucceeds env.fetch = false →
        (migrateChartFromSourceToDestination env cfg hc fs).steps = [Step.fetchStep]
        ∧ Step.pushStep ∉ (migrateChartFromSourceToDestination env cfg hc fs).steps) := by
  rw [migrate_eq]
  simp only [migrateStepsOf]
  cases hf : fetchSucceeds env.fetch <;> cases hp : env.pushError <;> simp

/-- Claim C5 witness: on a concrete transfer whose fetch fails with a
transport error, the trace is exactly the fetch step and contains no push
step. -/
theorem C5_fetch_failure_short_circuits_witness :
    (migrateChartFromSourceToDestination envTransportFails cfg0 hc0 []).steps
      = [Step.fetchStep]
    ∧ Step.pushStep ∉
        (migrateChartFromSourceToDestination envTransportFails cfg0 hc0 []).steps :=
  (C5_fetch_failure_short_circuits envTransportFails cfg0 hc0 []).2 (by rfl)

/-- A run oracle where logins and discovery succeed and the single chart's
transfer fails at the push step. -/
def mainEnvOneFailure : MainEnv := ⟨false, false, false, [(hc0, envPushFails)]⟩

/-- A run oracle where logins and discovery succeed and the single chart's
transfer succeeds. -/
def mainEnvAllOk : MainEnv := ⟨false, false, false, [(hc0, envAllOk)]⟩

/-- A run oracle where the destination login fails. -/
def mainEnvDestLoginFails : MainEnv := ⟨false, true, false, [(hc0, envAllOk)]⟩

/-- Claim C4 counterexample: two runs in which authentication and discovery
succeed, one with a failing chart (failure count 1) and one with none,
terminate with the same process exit status, so the exit status does not
distinguish all-succeeded from one-or-more-failed. -/
theorem C4_counterexample :
    (mainRun mainEnvOneFailure cfg0 []).exitKind = ExitKind.completed 1 1
    ∧ (mainRun mainEnvAllOk cfg0 []).exitKind = ExitKind.completed 0 1
    ∧ exitStatus (mainRun mainEnvOneFailure cfg0 []).exitKind
        = exitStatus (mainRun mainEnvAllOk cfg0 []).exitKind := by
  refine ⟨?_, ?_, ?_⟩ <;> rfl

/-- Claim C4 amended: when authentication and discovery succeed the run
always processes the full chart list in discovery order, but the process
exit status is 0 regardless of the failure count — it does not distinguish
all-succeeded from one-or-more-failed. -/
theorem C4_full_list_exit_always_zero (env : MainEnv) (cfg : Config)
    (fs : FileSystem) (hs : env.sourceLoginError = false)
    (hd : env.destLoginError = false) (hdisc : env.discoveryError = false) :
    (mainRun env cfg fs).attempted = env.charts.map Prod.fst
    ∧ exitStatus (mainRun env cfg fs).exitKind = 0 := by
  have h := (migrationLoop_spec cfg env.charts ⟨0, [], [], [], fs⟩).1
  simp [mainRun, hs, hd, hdisc, exitStatus, h]

/-- Claim C4 witness: the amended claim at a concrete run with one failing
chart. -/
theorem C4_full_list_exit_always_zero_witness :
    (mainRun mainEnvOneFailure cfg0 []).attempted
      = mainEnvOneFailure.charts.map Prod.fst
    ∧ exitStatus (mainRun mainEnvOneFailure cfg0 []).exitKind = 0 :=
  C4_full_list_exit_always_zero mainEnvOneFailure cfg0 [] rfl rfl rfl

/-- Claim C6: if authentication fails for the source or the destination
registry, the run aborts with exit status 1 before discovery is consulted
and before any chart-level work: no step events (hence no fetch or push
call), no chart attempted, and the staging directory untouched. -/
theorem C6_auth_failure_aborts (env : MainEnv) (cfg : Config) (fs : FileSystem)
    (h : env.sourceLoginError = true ∨ env.destLoginError = true) :
    exitStatus (mainRun env cfg fs).exitKind = 1
    ∧ (mainRun env cfg fs).events = []
    ∧ (mainRun env cfg fs).attempted = []
    ∧ (mainRun env cfg fs).fs = fs
    ∧ (mainRun env cfg fs).discoveryConsulted = false := by
  rcases h with h | h
  · simp [mainRun, h, exitStatus]
  · cases hs : env.sourceLoginError <;> simp [mainRun, h, hs, exitStatus]

/-- Claim C6 witness: a concrete run whose destination login fails aborts
with exit status 1, no events, nothing attempted, the staging directory
untouched, and discovery never consulted. -/
theorem C6_auth_failure_aborts_witness :
    exitStatus (mainRun mainEnvDestLoginFails cfg0 []).exitKind = 1
    ∧ (mainRun mainEnvDestLoginFails cfg0 []).events = []
    ∧ (mainRun mainEnvDestLoginFails cfg0 []).attempted = []
    ∧ (mainRun mainEnvDestLoginFails cfg0 []).fs = []
    ∧ (mainRun mainEnvDestLoginFails cfg0 []).discoveryConsulted = false :=
  C6_auth_failure_aborts mainEnvDestLoginFails cfg0 [] (Or.inr rfl)

/-- A chart identity sharing name and version with hc0 but under another
project. -/
def hc0b : HelmChart := ⟨"redis", "alt", "1.0.0"⟩

/-- Claim C7: ChartFileName is a pure, deterministic function of name and
version, producing name-version.tgz; two identities with equal name and
version derive identical filenames; and both the fetch URL and the helm
push arguments reference exactly that derived filename. -/
theorem C7_filename_roundtrip (cfg : Config) (hc hc2 : HelmChart)
    (h1 : hc.name = hc2.name) (h2 : hc.version = hc2.version) :
    hc.ChartFileName = hc.name ++ "-" ++ hc.version ++ ".tgz"
    ∧ hc.ChartFileName = hc2.ChartFileName
    ∧ sourceChartURL cfg hc
        = cfg.sourceHarborURL ++ "/chartrepo/" ++ hc.project ++ "/charts/"
            ++ hc.ChartFileName
    ∧ hc.ChartFileName ∈ pushCommandArgs cfg hc := by
  refine ⟨rfl, ?_, rfl, ?_⟩
  · simp [HelmChart.ChartFileName, h1, h2]
  · simp [pushCommandArgs]

/-- Claim C7 witness: the round-trip at two concrete identities sharing
name and version. -/
theorem C7_filename_roundtrip_witness :
    hc0.ChartFileName = hc0.name ++ "-" ++ hc0.version ++ ".tgz"
    ∧ hc0.ChartFileName = hc0b.ChartFileName
    ∧ sourceChartURL cfg0 hc0
        = cfg0.sourceHarborURL ++ "/chartrepo/" ++ hc0.project ++ "/charts/"
            ++ hc0.ChartFileName
    ∧ hc0.ChartFileName ∈ pushCommandArgs cfg0 hc0 :=
  C7_filename_roundtrip cfg0 hc0 hc0b rfl rfl

/-- Claim C8 counterexample: neither the push call nor the authenticate
call carries a timeout bound in the code (both are exec.Command subprocess
invocations without a deadline), refuting that every network call is
bounded by a timeout. -/
theorem C8_counterexample :
    (callTimeoutSeconds NetworkCall.pushCall).isSome = false
    ∧ (callTimeoutSeconds NetworkCall.authenticateCall).isSome = false :=
  ⟨rfl, rfl⟩

/-- Claim C8 amended: only the fetch call is bounded by a timeout, of
exactly 5 seconds (so the 5-second minimum holds for it); the push and
authenticate subprocess invocations carry no timeout bound at all. -/
theorem C8_only_fetch_has_timeout :
    callTimeoutSeconds NetworkCall.fetchCall = some timeoutSecondsValue
    ∧ timeoutSecondsValue = 5
    ∧ callTimeoutSeconds NetworkCall.pushCall = none
    ∧ callTimeoutSeconds NetworkCall.authenticateCall = none :=
  ⟨rfl, rfl, rfl, rfl⟩

/-- Claim C9: ChartFileName ignores the project field entirely: two
identities with equal name and version but different projects derive the
same filename, and a fetch for either one leaves the staging directory in
the same state — their staged artifacts collide on the same staging path. -/
theorem C9_project_ignored (hc hc2 : HelmChart) (e : FetchEnv) (cfg : Config)
    (fs : FileSystem) (h1 : hc.name = hc2.name) (h2 : hc.version = hc2.version)
    (_h3 : hc.project ≠ hc2.project) :
    hc.ChartFileName = hc2.ChartFileName
    ∧ (pullChartFromSource e cfg hc fs).2 = (pullChartFromSource e cfg hc2 fs).2 := by
  have hfn : hc.ChartFileName = hc2.ChartFileName := by
    simp [HelmChart.ChartFileName, h1, h2]
  exact ⟨hfn, by simp [pullChartFromSource, hfn]⟩

/-- Claim C9 witness: the collision at two concrete identities differing
only in their project. -/
theorem C9_project_ignored_witness :
    hc0.ChartFileName = hc0b.ChartFileName
    ∧ (pullChartFromSource fetchOkEnv cfg0 hc0 []).2
        = (pullChartFromSource fetchOkEnv cfg0 hc0b []).2 :=
  C9_project_ignored hc0 hc0b fetchOkEnv cfg0 [] rfl rfl (by decide)

/-- A fetch oracle failing with a 404 status. -/
def badStatusEnv : FetchEnv := ⟨false, false, 404, false, 7, false⟩

/-- Claim C10: when the fetch step fails with a request-construction error,
a transport error, a non-200 status, or a body-read error, the call returns
an error and leaves the staging directory unchanged — the file write is the
last action of the fetch step and is never reached on those errors. -/
theorem C10_fetch_error_leaves_fs (e : FetchEnv) (cfg : Config)
    (hc : HelmChart) (fs : FileSystem)
    (h : e.requestError = true ∨ e.transportError = true
        ∨ e.statusCode ≠ 200 ∨ e.readError = true) :
    (pullChartFromSource e cfg hc fs).1 ≠ Except.ok ()
    ∧ (pullChartFromSource e cfg hc fs).2 = fs := by
  rcases e with ⟨re, te, sc, rde, b, we⟩
  cases re <;> cases te <;> cases rde <;> by_cases hsc : sc = 200 <;>
    simp_all [pullChartFromSource]

/-- Claim C10 witness: a concrete fetch failing with status 404 returns an
error and leaves the empty staging directory empty. -/
theorem C10_fetch_error_leaves_fs_witness :
    (pullChartFromSource badStatusEnv cfg0 hc0 []).1 ≠ Except.ok ()
    ∧ (pullChartFromSource badStatusEnv cfg0 hc0 []).2 = [] :=
  C10_fetch_error_leaves_fs badStatusEnv cfg0 hc0 []
    (Or.inr (Or.inr (Or.inl (by decide))))

end Chartmuseum2oci
